import Mathlib

/-!
Verification of the GPU-resource lifecycle and context-state subsystem of
`minigl` (`hlcontext.py`, `hlframebuffer.py`).

The embedding is a shallow state-passing translation of the Python source.
Native OpenGL is treated as an opaque collaborator: every native call the
code issues is appended to an observation log (`MState.calls`), and the few
pieces of native state the code reads (`gl.current_context`,
`glCheckFramebufferStatus`) are fields of the state.  Python exceptions are
returned as `Option PyError` / `Except PyError` values, paired with the
state reached at raise time (native calls issued before a raise persist).
-/

/-! ## OpenGL enum constants (values from `pyglet.gl`, as used by the source) -/

def GL_BLEND : Nat := 0x0BE2
def GL_DEPTH_TEST : Nat := 0x0B71
def GL_CULL_FACE : Nat := 0x0B44
def GL_PROGRAM_POINT_SIZE : Nat := 0x8642
def GL_FRAMEBUFFER : Nat := 0x8D40
def GL_COLOR_ATTACHMENT0 : Nat := 0x8CE0
def GL_DEPTH_ATTACHMENT : Nat := 0x8D00
def GL_FRAMEBUFFER_COMPLETE : Nat := 0x8CD5
def GL_FRAMEBUFFER_UNSUPPORTED : Nat := 0x8CDD
def GL_FRAMEBUFFER_INCOMPLETE_ATTACHMENT : Nat := 0x8CD6
def GL_FRAMEBUFFER_INCOMPLETE_MISSING_ATTACHMENT : Nat := 0x8CD7
def GL_FRAMEBUFFER_INCOMPLETE_DIMENSIONS_EXT : Nat := 0x8CD9
def GL_FRAMEBUFFER_INCOMPLETE_FORMATS_EXT : Nat := 0x8CDA
def GL_FRAMEBUFFER_INCOMPLETE_DRAW_BUFFER : Nat := 0x8CDB
def GL_FRAMEBUFFER_INCOMPLETE_READ_BUFFER : Nat := 0x8CDC

/-- Log entry for one native OpenGL call issued by the wrapper. -/
inductive GLCall where
  | glEnable (cap : Nat)
  | glDisable (cap : Nat)
  | glPointSize (size : ℚ)
  | glBindFramebuffer (target fbo : Nat)
  | glDrawBuffers (count : Nat)
  | glDepthMask (flag : Bool)
  | glDeleteFramebuffers (n fbo : Nat)
  | glGenFramebuffers (n fbo : Nat)
  | glFramebufferTexture2D (attachment texTarget texGlo : Nat)
  | glCheckFramebufferStatus
deriving DecidableEq

/-- Python exceptions raised by the subsystem (`raise ValueError(...)`;
`attributeError` stands for the `AttributeError` Python itself would raise
on `None.size`, an unreachable branch of `_detect_size`). -/
inductive PyError where
  | valueError (msg : String)
  | attributeError
deriving DecidableEq

/-- Texture attachment as consumed by `hlframebuffer.py` (`tex.glo`,
`tex._target`, `tex.size`).  The texture module itself is outside `src/`;
only the three fields the framebuffer code reads are modelled. -/
structure HLTexture where
  glo : Nat
  target : Nat
  size : Nat × Nat
deriving DecidableEq

/-- Framebuffer object state: `_glo` (native handle, `0` = deleted),
`is_default` (default-framebuffer sentinel flag), `_draw_buffers` and
`_depth_mask` as set up by `__init__`.  `fbid` stands for Python object
identity, used by the `self.ctx.active_framebuffer == self` comparison. -/
structure HLFramebuffer where
  fbid : Nat
  glo : Nat
  is_default : Bool
  draw_buffers : List Nat
  depth_mask : Bool
deriving DecidableEq

/-- The pending-deletion queue (`HLContext.objects`, a `deque`).
`node fb spawns rest` is a queue whose head is the resource `fb` and whose
tail is `rest`; `spawns` are the resources that become unreachable while
the `delete()` of `fb` runs and are therefore appended to the queue as a side
effect of that delete (the host garbage collector firing `__del__` on
dependents mid-drain).  A forest is thus both a queue and, per entry, the
tree of deletions it transitively triggers. -/
inductive GCForest where
  | nil
  | node (fb : HLFramebuffer) (spawns : GCForest) (rest : GCForest)
deriving DecidableEq

/-- Total number of resources a queue holds, side-effect spawns included. -/
def GCForest.size : GCForest → Nat
  | .nil => 0
  | .node _ spawns rest => 1 + GCForest.size spawns + GCForest.size rest

/-- Queue concatenation (append to the right end of the deque). -/
def GCForest.append : GCForest → GCForest → GCForest
  | .nil, t => t
  | .node fb spawns rest, t => .node fb spawns (GCForest.append rest t)

/-- Number of entries directly in the queue (spawns not counted). -/
def GCForest.length : GCForest → Nat
  | .nil => 0
  | .node _ _ rest => 1 + GCForest.length rest

/-- A queue is flat when no queued resource enqueues more on deletion. -/
def GCForest.flat : GCForest → Bool
  | .nil => true
  | .node _ .nil rest => GCForest.flat rest
  | .node _ (.node _ _ _) _ => false

/-- Combined state: context fields initialised in `HLContext.__init__`
(`_gc_mode`, `_flags`, `_point_size`, `objects`, the framebuffer entry of
`ContextStats`, `active_framebuffer`) together with the observed native
side: whether `gl.current_context` is still live, the native capability
enable/disable state, the status `glCheckFramebufferStatus` reports, and
the log of issued native calls. -/
structure MState where
  current_context : Bool
  check_status : Nat
  gl_enabled : Finset Nat
  calls : List GLCall
  gc_mode : String
  flags : Finset Nat
  point_size : ℚ
  active_framebuffer : Option Nat
  fb_created : Nat
  fb_freed : Nat
  objects : GCForest
deriving DecidableEq

/-! ## Resource deletion (`hlframebuffer.py` lines 331-350) -/

/-- Embeds `HLFramebuffer.delete_glo(ctx, framebuffer_id)`: if the global
graphics context is gone (`gl.current_context is None`) return immediately;
otherwise issue `glDeleteFramebuffers(1, framebuffer_id)` and run
`ctx.stats.decr("framebuffer")` (the freed counter increments).  There is
no check of the handle value itself. -/
def HLFramebuffer.delete_glo (s : MState) (framebuffer_id : Nat) : MState :=
  if s.current_context then
    { s with
      calls := s.calls ++ [GLCall.glDeleteFramebuffers 1 framebuffer_id],
      fb_freed := s.fb_freed + 1 }
  else s

/-- Embeds `HLFramebuffer.delete(self)`: call
`HLFramebuffer.delete_glo(self._ctx, self._glo)` then set
`self._glo.value = 0`.  Returns the updated state and the updated
framebuffer object. -/
def HLFramebuffer.delete (s : MState) (fb : HLFramebuffer) : MState × HLFramebuffer :=
  let s1 := HLFramebuffer.delete_glo s fb.glo
  (s1, { fb with glo := 0 })

/-- Embeds `HLFramebuffer.__del__(self)`: append `self` to
`self._ctx.objects` exactly when the context gc mode is `"context_gc"`,
the framebuffer is not the default-framebuffer sentinel, and its handle is
still nonzero.  `spawns` is the (possibly empty) forest of resources whose
own `__del__` a later deletion of `fb` would trigger; it parametrises the
host object graph and plays no role in the enqueue decision. -/
def HLFramebuffer.del (s : MState) (fb : HLFramebuffer) (spawns : GCForest) : MState :=
  if s.gc_mode = "context_gc" ∧ fb.is_default = false ∧ 0 < fb.glo then
    { s with objects := s.objects.append (GCForest.node fb spawns GCForest.nil) }
  else s

/-! ## Context garbage collection (`hlcontext.py` lines 189-206) -/

/-- One-step unfolding of the `while len(self.objects):` drain in
`HLContext.gc`.  Each iteration pops the queue head (`popleft`), runs its
`delete()` (which may append spawned resources to the right end of the
queue), and increments `num_objects`.  The loop re-checks the queue on
every iteration, so spawned entries are drained in the same call.  `fuel`
is a structural bound on the number of iterations; `HLContext.gc` passes
the total resource count, which the drain consumes exactly, so the
fuel-exhausted branch is never reached from `gc`. -/
def gcDrain : Nat → MState → Nat → MState × Nat
  | 0, s, num_objects => (s, num_objects)
  | fuel + 1, s, num_objects =>
    match s.objects with
    | GCForest.nil => (s, num_objects)
    | GCForest.node fb spawns rest =>
      let s1 := (HLFramebuffer.delete s fb).1
      gcDrain fuel { s1 with objects := rest.append spawns } (num_objects + 1)

/-- Embeds `HLContext.gc(self)`: drain `self.objects` until it is observed
empty and return the number of objects processed. -/
def HLContext.gc (s : MState) : MState × Nat :=
  gcDrain s.objects.size s 0

/-! ## gc mode setter (`hlcontext.py` lines 222-227) -/

/-- Embeds the `gc_mode` property setter: `modes = ["auto", "context_gc"]`;
raise `ValueError` if `value not in modes`, otherwise store the value.
The raise happens before the assignment, so on error the stored mode is
untouched. -/
def HLContext.set_gc_mode (s : MState) (value : String) : MState × Option PyError :=
  if value ∈ ["auto", "context_gc"] then
    ({ s with gc_mode := value }, none)
  else
    (s, some (PyError.valueError "Unsupported gc_mode. Supported modes are: auto, context_gc"))

/-! ## Point size (`hlcontext.py` lines 383-391) -/

/-- Embeds the `point_size` property setter: first
`gl.glPointSize(self._point_size)` with the currently cached value, then
`self._point_size = value`. -/
def HLContext.point_size_set (s : MState) (value : ℚ) : MState :=
  { s with
    calls := s.calls ++ [GLCall.glPointSize s.point_size],
    point_size := value }

/-- Embeds the `point_size` property getter. -/
def HLContext.point_size_get (s : MState) : ℚ :=
  s.point_size

/-- The cached point size assigned in `HLContext.__init__`
(`self._point_size = 1.0`). -/
def init_point_size : ℚ := 1

/-! ## Capability flags (`hlcontext.py` lines 251-324) -/

/-- Native `gl.glEnable(cap)`: record the call and mark the capability
enabled on the device. -/
def glEnableCall (s : MState) (cap : Nat) : MState :=
  { s with
    gl_enabled := insert cap s.gl_enabled,
    calls := s.calls ++ [GLCall.glEnable cap] }

/-- Native `gl.glDisable(cap)`: record the call and mark the capability
disabled on the device. -/
def glDisableCall (s : MState) (cap : Nat) : MState :=
  { s with
    gl_enabled := s.gl_enabled.erase cap,
    calls := s.calls ++ [GLCall.glDisable cap] }

/-- Embeds `HLContext.enable(self, *flags)`:
`self._flags.update(flags)` then `gl.glEnable(flag)` for each flag in
argument order. -/
def HLContext.enable (s : MState) (flags : List Nat) : MState :=
  let s1 := { s with flags := s.flags ∪ flags.toFinset }
  flags.foldl glEnableCall s1

/-- One `if cap in self._flags: gl.glEnable(cap) else: gl.glDisable(cap)`
arm of `HLContext.enable_only`. -/
def syncCap (s : MState) (cap : Nat) : MState :=
  if cap ∈ s.flags then glEnableCall s cap else glDisableCall s cap

/-- Embeds `HLContext.enable_only(self, *args)`:
`self._flags = set(args)`, then synchronise each of the four enumerated
capabilities (`BLEND`, `DEPTH_TEST`, `CULL_FACE`, `PROGRAM_POINT_SIZE`)
to its membership in the new set.  No native call is issued for any other
capability. -/
def HLContext.enable_only (s : MState) (args : List Nat) : MState :=
  let s1 := { s with flags := args.toFinset }
  syncCap (syncCap (syncCap (syncCap s1 GL_BLEND) GL_DEPTH_TEST) GL_CULL_FACE)
    GL_PROGRAM_POINT_SIZE

/-- The enumerated capability list `enable_only` synchronises natively. -/
def knownCaps : Finset Nat :=
  {GL_BLEND, GL_DEPTH_TEST, GL_CULL_FACE, GL_PROGRAM_POINT_SIZE}

/-- Tests whether a logged call is an enable/disable of one of the four
enumerated capabilities. -/
def knownCall : GLCall → Bool
  | GLCall.glEnable cap => decide (cap ∈ knownCaps)
  | GLCall.glDisable cap => decide (cap ∈ knownCaps)
  | _ => false

/-- The `finally: self.enable(*old_flags)` step of `HLContext.enabled`:
re-enable every flag of a captured flag set (union into the cache and one
`glEnable` per element; the set is enumerated in ascending order, standing
for the arbitrary set iteration order of Python). -/
def enableSet (s : MState) (old : Finset Nat) : MState :=
  { s with
    flags := s.flags ∪ old,
    calls := s.calls ++ (old.sort (· ≤ ·)).map GLCall.glEnable }

/-- Embeds the scoped `HLContext.enabled(self, *flags)` context manager
around a block `body`:  `old_flags = self._flags`; `self.enable(*flags)`;
run the block; `finally: self.enable(*old_flags)`.  The `Bool` returned by
`body` records whether the block raised; the `finally` clause runs on both
exit paths, so both are the same state transformer.  (In the source
`old_flags` aliases the mutable flag set; for blocks that do not mutate
the flag set — such as the ones considered below — the alias equals the
captured value.  On either reading the restoration path only ever calls
`enable`, never `disable`.) -/
def HLContext.enabled_run (s : MState) (flags : List Nat)
    (body : MState → MState × Bool) : MState × Bool :=
  let old_flags := s.flags
  let s1 := HLContext.enable s flags
  let r := body s1
  (enableSet r.1 old_flags, r.2)

/-! ## Framebuffer binding (`hlframebuffer.py` lines 228-248) -/

/-- Embeds `HLFramebuffer._use(self, force)`: if
`self.ctx.active_framebuffer == self and not force`, return without any
native call; otherwise `glBindFramebuffer(GL_FRAMEBUFFER, self._glo)`,
`glDrawBuffers(...)` when `self._draw_buffers` is non-empty, and
`glDepthMask(self._depth_mask)`. -/
def HLFramebuffer.use_inner (s : MState) (fb : HLFramebuffer) (force : Bool) : MState :=
  if s.active_framebuffer = some fb.fbid ∧ force = false then s
  else
    let s1 := { s with
      calls := s.calls ++ [GLCall.glBindFramebuffer GL_FRAMEBUFFER fb.glo] }
    let s2 :=
      if fb.draw_buffers.isEmpty then s1
      else { s1 with calls := s1.calls ++ [GLCall.glDrawBuffers fb.draw_buffers.length] }
    { s2 with calls := s2.calls ++ [GLCall.glDepthMask fb.depth_mask] }

/-- Embeds `HLFramebuffer.use(self, force)`: run `self._use(force=force)`
then unconditionally set `self._ctx.active_framebuffer = self`. -/
def HLFramebuffer.use (s : MState) (fb : HLFramebuffer) (force : Bool) : MState :=
  let s1 := HLFramebuffer.use_inner s fb force
  { s1 with active_framebuffer := some fb.fbid }

/-! ## Framebuffer construction (`hlframebuffer.py` lines 57-120, 352-390) -/

/-- Embeds `HLFramebuffer._detect_size(self)`: take the size of the first
color attachment (or of the depth attachment when the color list is
empty), then raise `ValueError` if any attachment in
`[*color_attachments, depth_attachment]` (skipping `None`) differs from
it.  With no attachments at all Python would raise `AttributeError` on
`None.size`; that branch is unreachable from `__init__`. -/
def HLFramebuffer.detect_size (color_attachments : List HLTexture)
    (depth_attachment : Option HLTexture) : Except PyError (Nat × Nat) :=
  match (match color_attachments with
         | t :: _ => some t.size
         | [] => depth_attachment.map (fun d => d.size)) with
  | none => Except.error PyError.attributeError
  | some expected =>
    if (color_attachments ++ depth_attachment.toList).all
        (fun layer => layer.size == expected) then
      Except.ok expected
    else
      Except.error (PyError.valueError "All framebuffer attachments should have the same size")

/-- Message table of `HLFramebuffer._check_completeness`. -/
def completenessMessage (status : Nat) : String :=
  if status = GL_FRAMEBUFFER_UNSUPPORTED then "Framebuffer unsupported. Try another format."
  else if status = GL_FRAMEBUFFER_INCOMPLETE_ATTACHMENT then "Framebuffer incomplete attachment."
  else if status = GL_FRAMEBUFFER_INCOMPLETE_MISSING_ATTACHMENT then "Framebuffer missing attachment."
  else if status = GL_FRAMEBUFFER_INCOMPLETE_DIMENSIONS_EXT then "Framebuffer unsupported dimension."
  else if status = GL_FRAMEBUFFER_INCOMPLETE_FORMATS_EXT then "Framebuffer incomplete formats."
  else if status = GL_FRAMEBUFFER_INCOMPLETE_DRAW_BUFFER then "Framebuffer incomplete draw buffer."
  else if status = GL_FRAMEBUFFER_INCOMPLETE_READ_BUFFER then "Framebuffer incomplete read buffer."
  else "Unknown error"

/-- Embeds `HLFramebuffer._check_completeness()`: query
`glCheckFramebufferStatus(GL_FRAMEBUFFER)` and raise a `ValueError`
naming the specific reason unless the status is
`GL_FRAMEBUFFER_COMPLETE`. -/
def HLFramebuffer.check_completeness (s : MState) : MState × Option PyError :=
  let s1 := { s with calls := s.calls ++ [GLCall.glCheckFramebufferStatus] }
  if s1.check_status = GL_FRAMEBUFFER_COMPLETE then (s1, none)
  else (s1, some (PyError.valueError
    ("Framebuffer is incomplete. " ++ completenessMessage s1.check_status)))

/-- The `glFramebufferTexture2D` calls attaching the color textures
(`GL_COLOR_ATTACHMENT0 + i` for the i-th attachment). -/
def attachColorCalls (color_attachments : List HLTexture) : List GLCall :=
  color_attachments.enum.map
    (fun p => GLCall.glFramebufferTexture2D (GL_COLOR_ATTACHMENT0 + p.1) p.2.target p.2.glo)

/-- Embeds `HLFramebuffer.__init__(self, ctx, color_attachments,
depth_attachment)`.  In order: raise `ValueError` if the color attachments
are missing or empty (the Python test `not color_attachments` covers `None` and
`[]`, both rendered here as `[]`); `glGenFramebuffers` and
`glBindFramebuffer` (the native handle the generate call returns is the
parameter `newId`); `_detect_size` (which may raise); one
`glFramebufferTexture2D` per color attachment and one for the depth
attachment if present; `_check_completeness` (which may raise); build
`_draw_buffers`; `stats.incr("framebuffer")`.  The `weakref.finalize`
registration done in `"auto"` gc mode is a host-runtime hook with no
native effect and is not part of the observed state. -/
def HLFramebuffer.init (s : MState) (newId : Nat)
    (color_attachments : List HLTexture) (depth_attachment : Option HLTexture) :
    MState × Except PyError HLFramebuffer :=
  if color_attachments.isEmpty then
    (s, Except.error (PyError.valueError "Framebuffer must at least have one color attachment"))
  else
    let s1 := { s with calls := s.calls ++
      [GLCall.glGenFramebuffers 1 newId, GLCall.glBindFramebuffer GL_FRAMEBUFFER newId] }
    match HLFramebuffer.detect_size color_attachments depth_attachment with
    | Except.error e => (s1, Except.error e)
    | Except.ok _ =>
      let s2 := { s1 with calls := s1.calls ++ attachColorCalls color_attachments }
      let s3 := match depth_attachment with
        | some d => { s2 with calls := s2.calls ++
            [GLCall.glFramebufferTexture2D GL_DEPTH_ATTACHMENT d.target d.glo] }
        | none => s2
      match HLFramebuffer.check_completeness s3 with
      | (s4, some e) => (s4, Except.error e)
      | (s4, none) =>
        let layers := (List.range color_attachments.length).map
          (fun i => GL_COLOR_ATTACHMENT0 + i)
        let s5 := { s4 with fb_created := s4.fb_created + 1 }
        (s5, Except.ok
          { fbid := newId, glo := newId, is_default := false,
            draw_buffers := layers, depth_mask := true })

/-! ## Concrete states used by witnesses and counterexamples -/

/-- Context-state fields as `HLContext.__init__` leaves them
(`_point_size = 1.0`, `_flags = set()`, default gc mode `"context_gc"`,
empty pending queue, zeroed framebuffer statistics), a live native
context, a completeness status of `GL_FRAMEBUFFER_COMPLETE`, and an empty
observation log. -/
def demoState : MState :=
  { current_context := true
    check_status := GL_FRAMEBUFFER_COMPLETE
    gl_enabled := ∅
    calls := []
    gc_mode := "context_gc"
    flags := ∅
    point_size := 1
    active_framebuffer := none
    fb_created := 0
    fb_freed := 0
    objects := GCForest.nil }

/-- A framebuffer whose handle is already zero (its `delete()` ran). -/
def deadFb : HLFramebuffer :=
  { fbid := 7, glo := 0, is_default := false,
    draw_buffers := [GL_COLOR_ATTACHMENT0], depth_mask := true }

/-- A live framebuffer with native handle 10. -/
def fbOne : HLFramebuffer :=
  { fbid := 1, glo := 10, is_default := false,
    draw_buffers := [GL_COLOR_ATTACHMENT0], depth_mask := true }

/-- A second live framebuffer with native handle 11. -/
def fbTwo : HLFramebuffer :=
  { fbid := 2, glo := 11, is_default := false,
    draw_buffers := [GL_COLOR_ATTACHMENT0], depth_mask := true }

/-- A 100 x 100 texture attachment. -/
def texA : HLTexture := { glo := 21, target := 0x0DE1, size := (100, 100) }

/-- A 200 x 200 texture attachment (size differs from `texA`). -/
def texB : HLTexture := { glo := 22, target := 0x0DE1, size := (200, 200) }

/-! ## Helper lemmas about the queue and the deletion primitives -/

theorem GCForest.size_append (a b : GCForest) :
    (a.append b).size = a.size + b.size := by
  induction a with
  | nil => simp [GCForest.append, GCForest.size]
  | node fb spawns rest ihs ihr =>
    simp [GCForest.append, GCForest.size, ihr]
    omega

theorem GCForest.size_eq_zero (q : GCForest) : q.size = 0 ↔ q = GCForest.nil := by
  cases q with
  | nil => simp [GCForest.size]
  | node fb spawns rest => simp [GCForest.size]

theorem GCForest.flat_size (q : GCForest) (h : q.flat = true) :
    q.size = q.length := by
  induction q with
  | nil => rfl
  | node fb spawns rest ihs ihr =>
    cases spawns with
    | nil =>
      simp [GCForest.flat] at h
      simp [GCForest.size, GCForest.length, ihr h]
    | node fb2 s2 r2 => simp [GCForest.flat] at h

theorem delete_glo_cc (s : MState) (i : Nat) :
    (HLFramebuffer.delete_glo s i).current_context = s.current_context := by
  unfold HLFramebuffer.delete_glo; split <;> rfl

theorem delete_glo_freed (s : MState) (i : Nat) :
    (HLFramebuffer.delete_glo s i).fb_freed =
      if s.current_context then s.fb_freed + 1 else s.fb_freed := by
  unfold HLFramebuffer.delete_glo; split <;> simp_all

theorem delete_glo_calls_dead (s : MState) (i : Nat) (h : s.current_context = false) :
    (HLFramebuffer.delete_glo s i).calls = s.calls := by
  unfold HLFramebuffer.delete_glo; simp [h]

/-- Invariant of the `while len(self.objects):` drain, by induction on the
fuel: with enough fuel the drain empties the queue, counts every resource
it pops (spawned ones included), increments the freed counter once per pop
while the native context is live, and issues no native call at all once
the context is gone. -/
theorem gcDrain_spec : ∀ (fuel : Nat) (s : MState) (n : Nat),
    s.objects.size ≤ fuel →
    ((gcDrain fuel s n).1.objects = GCForest.nil
    ∧ (gcDrain fuel s n).2 = n + s.objects.size
    ∧ (gcDrain fuel s n).1.fb_freed =
        (if s.current_context then s.fb_freed + s.objects.size else s.fb_freed)
    ∧ (gcDrain fuel s n).1.current_context = s.current_context
    ∧ (s.current_context = false → (gcDrain fuel s n).1.calls = s.calls)) := by
  intro fuel
  induction fuel with
  | zero =>
    intro s n h
    have h0 : s.objects.size = 0 := Nat.le_zero.mp h
    have := (GCForest.size_eq_zero s.objects).mp h0
    simp [gcDrain, this, h0, GCForest.size]
  | succ fuel ih =>
    intro s n h
    cases hq : s.objects with
    | nil =>
      simp [gcDrain, hq, GCForest.size]
    | node fb spawns rest =>
      have hsz : s.objects.size = 1 + spawns.size + rest.size := by
        rw [hq]; rfl
      have hle : (rest.append spawns).size ≤ fuel := by
        rw [GCForest.size_append]; omega
      have step : gcDrain (fuel + 1) s n =
          gcDrain fuel
            { (HLFramebuffer.delete s fb).1 with objects := rest.append spawns }
            (n + 1) := by
        simp [gcDrain, hq]
      set s' : MState :=
        { (HLFramebuffer.delete s fb).1 with objects := rest.append spawns } with hs'
      have hobj' : s'.objects = rest.append spawns := rfl
      have hcc' : s'.current_context = s.current_context := by
        simp [hs', HLFramebuffer.delete, delete_glo_cc]
      have hfreed' : s'.fb_freed =
          (if s.current_context then s.fb_freed + 1 else s.fb_freed) := by
        simp [hs', HLFramebuffer.delete, delete_glo_freed]
      have hcalls' : s.current_context = false → s'.calls = s.calls := by
        intro hdead
        simp [hs', HLFramebuffer.delete, delete_glo_calls_dead _ _ hdead]
      obtain ⟨o1, o2, o3, o4, o5⟩ := ih s' (n + 1) (hobj' ▸ hle)
      refine ⟨step ▸ o1, ?_, ?_, ?_, ?_⟩
      · rw [step, o2, hobj', GCForest.size_append]
        simp [GCForest.size]; omega
      · rw [step, o3, hcc', hfreed', hobj', GCForest.size_append]
        by_cases hl : s.current_context
        · simp [hl, GCForest.size]; omega
        · simp [hl, GCForest.size]
      · rw [step, o4, hcc']
      · intro hdead
        rw [step, o5 (by rw [hcc']; exact hdead), hcalls' hdead]

/-- A deferred-mode context whose pending queue holds two flat resources. -/
def gcDemoState : MState :=
  { demoState with
    objects := GCForest.node fbOne GCForest.nil (GCForest.node fbTwo GCForest.nil GCForest.nil) }

/-- A context state after the global graphics context was torn down. -/
def teardownState : MState := { demoState with current_context := false }

/-- C1: in deferred (`"context_gc"`) mode, `gc()` drains the pending queue
to empty, processing resources enqueued as a side effect of a delete
within the same call, and returns the number of resources it deleted:
the total resource count of the initial queue, which equals the queue
length N when no queued resource enqueues more; while the native context
is live the freed counter grows by exactly that return value. -/
theorem gc_drains_queue (s : MState)
    (_hmode : s.gc_mode = "context_gc") (_hne : s.objects ≠ GCForest.nil) :
    (HLContext.gc s).1.objects = GCForest.nil
    ∧ (HLContext.gc s).2 = s.objects.size
    ∧ (s.objects.flat = true → (HLContext.gc s).2 = s.objects.length)
    ∧ (s.current_context = true →
        (HLContext.gc s).1.fb_freed = s.fb_freed + (HLContext.gc s).2) := by
  obtain ⟨o1, o2, o3, -, -⟩ := gcDrain_spec s.objects.size s 0 (Nat.le_refl _)
  refine ⟨o1, ?_, ?_, ?_⟩
  · rw [HLContext.gc, o2, Nat.zero_add]
  · intro hflat
    rw [HLContext.gc, o2, Nat.zero_add, GCForest.flat_size s.objects hflat]
  · intro hlive
    rw [HLContext.gc, o3, o2, hlive, Nat.zero_add]
    simp

/-- Witness for C1 at a concrete two-element queue: `gc()` returns 2,
empties the queue, and the freed counter ends at 2. -/
theorem gc_drains_queue_witness :
    (HLContext.gc gcDemoState).1.objects = GCForest.nil
    ∧ (HLContext.gc gcDemoState).2 = 2
    ∧ (HLContext.gc gcDemoState).2 = gcDemoState.objects.length
    ∧ (HLContext.gc gcDemoState).1.fb_freed = 2 := by
  have h := gc_drains_queue gcDemoState rfl (by decide)
  refine ⟨h.1, ?_, ?_, ?_⟩
  · rw [h.2.1]; decide
  · rw [h.2.2.1 (by decide)]
  · rw [h.2.2.2 rfl, h.2.1]; decide

/-- C2 counterexample: on a resource whose handle is already zero (with a
live context), `delete()` still issues a native `glDeleteFramebuffers`
call (with id 0) and still bumps the freed counter — `delete_glo` never
inspects the handle value, so the claimed zero-handle no-op does not
exist in the code. -/
theorem delete_zero_handle_cex :
    (HLFramebuffer.delete demoState deadFb).1.fb_freed = demoState.fb_freed + 1
    ∧ (HLFramebuffer.delete demoState deadFb).1.calls =
        demoState.calls ++ [GLCall.glDeleteFramebuffers 1 0]
    ∧ deadFb.glo = 0 := by decide

/-- C2 (amended): while the global context is live, `delete()` always
issues the native destroy call with the current handle value (zero
included) and always increments the freed counter, then zeroes the
handle; hence a double delete issues a second native call with handle 0
and moves the freed counter twice — only the handle itself is
idempotent. -/
theorem delete_always_decrements (s : MState) (fb : HLFramebuffer)
    (hlive : s.current_context = true) :
    ((HLFramebuffer.delete s fb).2.glo = 0
    ∧ (HLFramebuffer.delete s fb).1.calls =
        s.calls ++ [GLCall.glDeleteFramebuffers 1 fb.glo]
    ∧ (HLFramebuffer.delete s fb).1.fb_freed = s.fb_freed + 1)
    ∧ ((HLFramebuffer.delete (HLFramebuffer.delete s fb).1
          (HLFramebuffer.delete s fb).2).1.calls =
        s.calls ++ [GLCall.glDeleteFramebuffers 1 fb.glo, GLCall.glDeleteFramebuffers 1 0]
    ∧ (HLFramebuffer.delete (HLFramebuffer.delete s fb).1
          (HLFramebuffer.delete s fb).2).1.fb_freed = s.fb_freed + 2) := by
  simp [HLFramebuffer.delete, HLFramebuffer.delete_glo, hlive]

/-- Witness for the amended C2 at a live framebuffer in a live context. -/
theorem delete_always_decrements_witness :
    ((HLFramebuffer.delete demoState fbOne).2.glo = 0
    ∧ (HLFramebuffer.delete demoState fbOne).1.calls =
        demoState.calls ++ [GLCall.glDeleteFramebuffers 1 fbOne.glo]
    ∧ (HLFramebuffer.delete demoState fbOne).1.fb_freed = demoState.fb_freed + 1)
    ∧ ((HLFramebuffer.delete (HLFramebuffer.delete demoState fbOne).1
          (HLFramebuffer.delete demoState fbOne).2).1.calls =
        demoState.calls ++ [GLCall.glDeleteFramebuffers 1 fbOne.glo,
          GLCall.glDeleteFramebuffers 1 0]
    ∧ (HLFramebuffer.delete (HLFramebuffer.delete demoState fbOne).1
          (HLFramebuffer.delete demoState fbOne).2).1.fb_freed = demoState.fb_freed + 2) :=
  delete_always_decrements demoState fbOne rfl

/-- C3 counterexample: the mode string `"deferred"` is rejected with a
`ValueError` (the stored mode stays `"context_gc"`), while the string
`"context_gc"` — not one of the two strings the claim allows — is
accepted. -/
theorem gc_mode_deferred_rejected :
    (HLContext.set_gc_mode demoState "deferred").2 =
      some (PyError.valueError "Unsupported gc_mode. Supported modes are: auto, context_gc")
    ∧ (HLContext.set_gc_mode demoState "deferred").1.gc_mode = "context_gc"
    ∧ (HLContext.set_gc_mode demoState "context_gc").2 = none := by decide

/-- C3 (amended): the `gc_mode` setter accepts exactly the two strings
`"auto"` and `"context_gc"`; every other string raises a `ValueError` and
leaves the stored mode (and all other state) unchanged. -/
theorem set_gc_mode_spec (s : MState) (v : String) :
    ((HLContext.set_gc_mode s v).2 = none ↔ (v = "auto" ∨ v = "context_gc"))
    ∧ ((HLContext.set_gc_mode s v).2 = none →
        (HLContext.set_gc_mode s v).1 = { s with gc_mode := v })
    ∧ ((HLContext.set_gc_mode s v).2 ≠ none → (HLContext.set_gc_mode s v).1 = s) := by
  unfold HLContext.set_gc_mode
  by_cases h : v ∈ ["auto", "context_gc"] <;> simp_all

/-- Witness for the amended C3: `"auto"` is stored, `"deferred"` leaves
the state untouched. -/
theorem set_gc_mode_spec_witness :
    (HLContext.set_gc_mode demoState "auto").1 =
      { demoState with gc_mode := "auto" }
    ∧ (HLContext.set_gc_mode demoState "deferred").1 = demoState :=
  ⟨(set_gc_mode_spec demoState "auto").2.1 (by decide),
    (set_gc_mode_spec demoState "deferred").2.2 (by decide)⟩

/-- C5: the `point_size` setter issues the native `glPointSize` call with
the previously cached value, then stores the new value (which the getter
subsequently returns); on a freshly constructed context the first setter
call therefore applies the default 1.0, not the value the caller asked
for. -/
theorem point_size_setter_applies_old (s : MState) (v : ℚ) :
    HLContext.point_size_get (HLContext.point_size_set s v) = v
    ∧ (HLContext.point_size_set s v).calls =
        s.calls ++ [GLCall.glPointSize s.point_size]
    ∧ (HLContext.point_size_set demoState v).calls =
        demoState.calls ++ [GLCall.glPointSize init_point_size] :=
  ⟨rfl, rfl, rfl⟩

/-- C8: once the global graphics context is gone
(`gl.current_context is None`), `delete_glo` — reached by the finalizer,
by an explicit `delete()`, and by every `delete()` that `gc()` performs —
returns without issuing the native delete call and without touching the
statistics, and no error is raised (the operation is total). -/
theorem delete_after_teardown_noop (s : MState) (fb : HLFramebuffer)
    (h : s.current_context = false) :
    HLFramebuffer.delete_glo s fb.glo = s
    ∧ (HLFramebuffer.delete s fb).1 = s
    ∧ (HLFramebuffer.delete s fb).2 = { fb with glo := 0 }
    ∧ (HLContext.gc s).1.calls = s.calls
    ∧ (HLContext.gc s).1.fb_freed = s.fb_freed := by
  obtain ⟨-, -, o3, -, o5⟩ := gcDrain_spec s.objects.size s 0 (Nat.le_refl _)
  refine ⟨?_, ?_, rfl, o5 h, ?_⟩
  · unfold HLFramebuffer.delete_glo; simp [h]
  · unfold HLFramebuffer.delete HLFramebuffer.delete_glo; simp [h]
  · rw [HLContext.gc, o3, h]; simp

/-- Witness for C8 at a torn-down context. -/
theorem delete_after_teardown_noop_witness :
    HLFramebuffer.delete_glo teardownState fbOne.glo = teardownState
    ∧ (HLFramebuffer.delete teardownState fbOne).1 = teardownState :=
  ⟨(delete_after_teardown_noop teardownState fbOne rfl).1,
    (delete_after_teardown_noop teardownState fbOne rfl).2.1⟩

/-- C4: evaluation of the scoped `enabled(F)` block at the failing input
S = empty set, F = (BLEND,), no-op block.  The `finally` clause only
re-enables the captured flags and never disables the ones added on entry,
so after the block exits — normally or by raising — the cached flag set is
S union F = singleton BLEND, not the pre-block set S = empty: the
restoration promised by the docstring (and the spec) does not happen. -/
theorem enabled_scope_leaves_flag_enabled :
    demoState.flags = ∅
    ∧ (HLContext.enabled_run demoState [GL_BLEND] (fun s => (s, false))).1.flags = {GL_BLEND}
    ∧ (HLContext.enabled_run demoState [GL_BLEND] (fun s => (s, true))).1.flags = {GL_BLEND} := by
  decide

/-! ## Helper lemmas for `enable_only` -/

theorem syncCap_flags (s : MState) (cap : Nat) : (syncCap s cap).flags = s.flags := by
  unfold syncCap glEnableCall glDisableCall; split <;> rfl

theorem syncCap_gl_mem (s : MState) (cap x : Nat) :
    (x ∈ (syncCap s cap).gl_enabled) ↔
      (if x = cap then cap ∈ s.flags else x ∈ s.gl_enabled) := by
  unfold syncCap glEnableCall glDisableCall
  rcases eq_or_ne x cap with h | h <;> split <;>
    simp_all [Finset.mem_insert, Finset.mem_erase]

theorem syncCap_calls (s : MState) (cap : Nat) :
    (syncCap s cap).calls =
      s.calls ++ [if cap ∈ s.flags then GLCall.glEnable cap else GLCall.glDisable cap] := by
  unfold syncCap glEnableCall glDisableCall; split <;> simp_all

theorem enable_only_flags (s : MState) (args : List Nat) :
    (HLContext.enable_only s args).flags = args.toFinset := by
  unfold HLContext.enable_only
  simp [syncCap_flags]

theorem enable_only_gl_mem (s : MState) (args : List Nat) (x : Nat) :
    (x ∈ (HLContext.enable_only s args).gl_enabled) ↔
      (if x ∈ knownCaps then x ∈ args.toFinset else x ∈ s.gl_enabled) := by
  unfold HLContext.enable_only
  simp only [syncCap_gl_mem, syncCap_flags]
  by_cases h1 : x = GL_PROGRAM_POINT_SIZE <;>
    by_cases h2 : x = GL_CULL_FACE <;>
      by_cases h3 : x = GL_DEPTH_TEST <;>
        by_cases h4 : x = GL_BLEND <;>
          simp_all [knownCaps, GL_BLEND, GL_DEPTH_TEST, GL_CULL_FACE, GL_PROGRAM_POINT_SIZE]

/-- The four native calls one `enable_only(args)` issues, in program
order: one enable-or-disable per enumerated capability. -/
def enableOnlyCalls (args : List Nat) : List GLCall :=
  [if GL_BLEND ∈ args.toFinset then GLCall.glEnable GL_BLEND else GLCall.glDisable GL_BLEND,
   if GL_DEPTH_TEST ∈ args.toFinset then GLCall.glEnable GL_DEPTH_TEST
     else GLCall.glDisable GL_DEPTH_TEST,
   if GL_CULL_FACE ∈ args.toFinset then GLCall.glEnable GL_CULL_FACE
     else GLCall.glDisable GL_CULL_FACE,
   if GL_PROGRAM_POINT_SIZE ∈ args.toFinset then GLCall.glEnable GL_PROGRAM_POINT_SIZE
     else GLCall.glDisable GL_PROGRAM_POINT_SIZE]

theorem enable_only_calls (s : MState) (args : List Nat) :
    (HLContext.enable_only s args).calls = s.calls ++ enableOnlyCalls args := by
  unfold HLContext.enable_only enableOnlyCalls
  simp only [syncCap_calls, syncCap_flags, List.append_assoc, List.cons_append,
    List.nil_append, List.singleton_append]

theorem knownCall_ite (cap : Nat) (c : Prop) [Decidable c] (h : cap ∈ knownCaps) :
    knownCall (if c then GLCall.glEnable cap else GLCall.glDisable cap) = true := by
  split <;> simp [knownCall, h]

theorem enableOnlyCalls_known (args : List Nat) :
    (enableOnlyCalls args).all knownCall = true := by
  unfold enableOnlyCalls
  simp [List.all, knownCall_ite, knownCaps]

/-- C6: after `enable_only(X)` followed by `enable_only(Y)` the cached
flag set is exactly the set of Y; among the four enumerated capabilities
the native enable state agrees with membership in Y, regardless of X;
native enable state outside the enumerated four is untouched; and every
native call the two invocations issued targets one of the enumerated
four. -/
theorem enable_only_pair_spec (s : MState) (X Y : List Nat) :
    (HLContext.enable_only (HLContext.enable_only s X) Y).flags = Y.toFinset
    ∧ (HLContext.enable_only (HLContext.enable_only s X) Y).gl_enabled ∩ knownCaps
        = Y.toFinset ∩ knownCaps
    ∧ (HLContext.enable_only (HLContext.enable_only s X) Y).gl_enabled \ knownCaps
        = s.gl_enabled \ knownCaps
    ∧ ∃ new, ((HLContext.enable_only (HLContext.enable_only s X) Y).calls = s.calls ++ new
        ∧ new.all knownCall = true) := by
  refine ⟨enable_only_flags _ _, ?_, ?_, ?_⟩
  · ext x
    by_cases hx : x ∈ knownCaps <;> simp [hx, enable_only_gl_mem]
  · ext x
    by_cases hx : x ∈ knownCaps <;> simp [hx, enable_only_gl_mem]
  · refine ⟨enableOnlyCalls X ++ enableOnlyCalls Y, ?_, ?_⟩
    · rw [enable_only_calls, enable_only_calls, List.append_assoc]
    · simp [List.all_append, enableOnlyCalls_known]

/-- C9: `use(force)` always points the globally tracked active-framebuffer
reference at this framebuffer, and the native bind sequence (bind,
draw-buffer setup, depth-mask setup) is skipped — the call log is left
unchanged — exactly when this framebuffer was already the tracked active
one and `force` is false. -/
theorem use_updates_active_and_skips (s : MState) (fb : HLFramebuffer) (force : Bool) :
    (HLFramebuffer.use s fb force).active_framebuffer = some fb.fbid
    ∧ ((HLFramebuffer.use s fb force).calls = s.calls ↔
        (s.active_framebuffer = some fb.fbid ∧ force = false)) := by
  refine ⟨rfl, ?_⟩
  unfold HLFramebuffer.use HLFramebuffer.use_inner
  by_cases h : s.active_framebuffer = some fb.fbid ∧ force = false
  · simp [h]
  · simp only [if_neg h]
    by_cases hd : fb.draw_buffers.isEmpty <;> simp [h, hd]

/-- C10: `__del__` appends the framebuffer to the pending queue exactly
when the gc mode is `"context_gc"`, the framebuffer is not the default
sentinel, and its handle is still nonzero; a resource whose `delete()`
already ran (handle zero) is never enqueued, and in `"auto"` mode
`__del__` never enqueues anything. -/
theorem intercept_del_enqueue (s : MState) (fb : HLFramebuffer) (spawns : GCForest) :
    ((HLFramebuffer.del s fb spawns).objects = s.objects
      ∨ (HLFramebuffer.del s fb spawns).objects =
          s.objects.append (GCForest.node fb spawns GCForest.nil))
    ∧ ((HLFramebuffer.del s fb spawns).objects ≠ s.objects ↔
        (s.gc_mode = "context_gc" ∧ fb.is_default = false ∧ 0 < fb.glo))
    ∧ (fb.glo = 0 → HLFramebuffer.del s fb spawns = s)
    ∧ (s.gc_mode = "auto" → HLFramebuffer.del s fb spawns = s) := by
  have hneq : s.objects.append (GCForest.node fb spawns GCForest.nil) ≠ s.objects := by
    intro heq
    have := congrArg GCForest.size heq
    rw [GCForest.size_append] at this
    simp [GCForest.size] at this
  unfold HLFramebuffer.del
  by_cases h : s.gc_mode = "context_gc" ∧ fb.is_default = false ∧ 0 < fb.glo
  · refine ⟨Or.inr (by simp [h]), by simp [h, hneq], ?_, ?_⟩
    · intro hz; omega
    · intro ha; rw [ha] at h; simp at h
  · simp [h]

/-- Witness for C10: in `"auto"` mode (and with a zero handle) `__del__`
leaves the state untouched. -/
theorem intercept_del_enqueue_witness :
    HLFramebuffer.del { demoState with gc_mode := "auto" } deadFb GCForest.nil =
      { demoState with gc_mode := "auto" }
    ∧ HLFramebuffer.del demoState deadFb GCForest.nil = demoState :=
  ⟨(intercept_del_enqueue { demoState with gc_mode := "auto" } deadFb GCForest.nil).2.2.2 rfl,
    (intercept_del_enqueue demoState deadFb GCForest.nil).2.2.1 rfl⟩

/-- C7 counterexample: constructing a framebuffer from two color
attachments of different sizes does raise the size-mismatch `ValueError`,
but only after the native `glBindFramebuffer` call for the new
framebuffer has already been issued — the failure does not precede the
native binding. -/
theorem framebuffer_init_binds_before_size_check :
    (HLFramebuffer.init demoState 1 [texA, texB] none).2 =
      Except.error (PyError.valueError "All framebuffer attachments should have the same size")
    ∧ GLCall.glBindFramebuffer GL_FRAMEBUFFER 1 ∈
        (HLFramebuffer.init demoState 1 [texA, texB] none).1.calls
    ∧ texA.size ≠ texB.size := by
  refine ⟨by rfl, by decide, by decide⟩

/-- C7 (amended): construction with zero color attachments raises the
`ValueError` before any native call; construction with attachments of
differing sizes raises the size-mismatch `ValueError` after the native
generate-and-bind calls for the new framebuffer but before any attachment
call; when all attachment sizes match, construction proceeds to the
native completeness check. -/
theorem framebuffer_init_spec (s : MState) (newId : Nat)
    (colors : List HLTexture) (depth : Option HLTexture) :
    (colors = [] → HLFramebuffer.init s newId colors depth
        = (s, Except.error (PyError.valueError "Framebuffer must at least have one color attachment")))
    ∧ (colors ≠ [] → ∀ e, HLFramebuffer.detect_size colors depth = Except.error e →
        HLFramebuffer.init s newId colors depth
          = ({ s with calls := s.calls ++ [GLCall.glGenFramebuffers 1 newId,
               GLCall.glBindFramebuffer GL_FRAMEBUFFER newId] }, Except.error e))
    ∧ (colors ≠ [] → ∀ wh, HLFramebuffer.detect_size colors depth = Except.ok wh →
        GLCall.glCheckFramebufferStatus ∈ (HLFramebuffer.init s newId colors depth).1.calls) := by
  refine ⟨?_, ?_, ?_⟩
  · intro hc; subst hc; simp [HLFramebuffer.init]
  · intro hc e he
    unfold HLFramebuffer.init
    rw [if_neg (by simpa [List.isEmpty_iff] using hc)]
    simp [he]
  · intro hc wh hok
    unfold HLFramebuffer.init HLFramebuffer.check_completeness
    rw [if_neg (by simpa [List.isEmpty_iff] using hc)]
    simp only [hok]
    by_cases hs : s.check_status = GL_FRAMEBUFFER_COMPLETE <;>
      rcases depth with _ | d <;> simp [hs]

/-- Witness for the amended C7: one concrete run per branch — no color
attachment, mismatched sizes, matching sizes. -/
theorem framebuffer_init_spec_witness :
    (HLFramebuffer.init demoState 2 [] none
        = (demoState, Except.error (PyError.valueError "Framebuffer must at least have one color attachment")))
    ∧ (HLFramebuffer.init demoState 2 [texA, texB] none
        = ({ demoState with calls := demoState.calls ++ [GLCall.glGenFramebuffers 1 2,
             GLCall.glBindFramebuffer GL_FRAMEBUFFER 2] },
           Except.error (PyError.valueError "All framebuffer attachments should have the same size")))
    ∧ GLCall.glCheckFramebufferStatus ∈ (HLFramebuffer.init demoState 2 [texA] none).1.calls :=
  ⟨(framebuffer_init_spec demoState 2 [] none).1 rfl,
    (framebuffer_init_spec demoState 2 [texA, texB] none).2.1 (by decide) _ (by rfl),
    (framebuffer_init_spec demoState 2 [texA] none).2.2 (by decide) (100, 100) (by rfl)⟩
